import Mathlib

/-!
# Verification of the thematic campaign-explorer core

Shallow embedding of the query/chat core of the `thematic` repository:
the filter model (`lib/filters.ts`), the shared tool-result builder and
tool runners (`lib/chat-tools.ts`), and the agentic orchestration loop
(`app/api/chat/route.ts`).  TypeScript nullable values become `Option`,
JS string truthiness is modelled explicitly, and the external
collaborators (OpenAI chat/embedding calls, Supabase store queries) are
abstracted as explicit function parameters.
-/

namespace Thematic

/-! ## Data model (`lib/supabase/client.ts`) -/

/-- A campaign row (`interface Campaign`).  Nullable columns are `Option`s.
The numeric columns `volume`/`spend` are carried as integers; the core never
computes with them. -/
structure Campaign where
  id : String := ""
  company : Option String := none
  brand : Option String := none
  channel : Option String := none
  primary_product : Option String := none
  offer : Option String := none
  incentives : Option (List String) := none
  key_value_props : Option (List String) := none
  campaign_text : Option String := none
  full_campaign_text : Option String := none
  imagery_sentiment : Option String := none
  imagery_visual_style : Option String := none
  imagery_primary_subject : Option String := none
  imagery_demographics : Option (List String) := none
  volume : Option Int := none
  spend : Option Int := none
  capture_date : Option String := none
  image_s3_url : Option String := none
  created_at : String := ""
  deriving DecidableEq

/-! ## Filter model (`lib/filters.ts`) -/

/-- The optional `{ start?, end? }` date range of `ActiveFilters.date_range`
(`end` is a Lean keyword, hence `end_`). -/
structure DateRange where
  start : Option String := none
  end_ : Option String := none
  deriving DecidableEq

/-- Embedding of `interface ActiveFilters`: every field optional. -/
structure ActiveFilters where
  channel : Option (List String) := none
  value_prop : Option (List String) := none
  sentiment : Option (List String) := none
  visual_style : Option (List String) := none
  date_range : Option DateRange := none
  deriving DecidableEq

/-- The empty filter object `{}` (all fields absent). -/
def emptyFilters : ActiveFilters := {}

/-- JS truthiness of a nullable string: `null`/`undefined` and `""` are falsy. -/
def strTruthy : Option String → Bool
  | none => false
  | some s => !(s == "")

/-- One enum-valued field check of `matchesFilters` (`lib/filters.ts`).  The
same code block appears three times in the source, once per field:

```ts
if (filters.channel && filters.channel.length > 0) {
  if (!campaign.channel || !filters.channel.includes(campaign.channel)) {
    return false;
  }
}
```

`true` means the block does not return `false`. -/
def enumFieldCheck (value : Option String) (filterList : Option (List String)) : Bool :=
  match filterList with
  | none => true
  | some l =>
    if l.isEmpty then true
    else strTruthy value && l.contains (value.getD "")

/-- The value-prop block of `matchesFilters`:

```ts
if (filters.value_prop && filters.value_prop.length > 0) {
  const campaignValueProps = campaign.key_value_props || [];
  const hasMatchingValueProp = filters.value_prop.some((vp) =>
    campaignValueProps.includes(vp));
  if (!hasMatchingValueProp) return false;
}
``` -/
def valuePropCheck (props : Option (List String)) (filterList : Option (List String)) : Bool :=
  match filterList with
  | none => true
  | some l =>
    if l.isEmpty then true
    else l.any fun vp => (props.getD []).contains vp

/-- The date-range block of `matchesFilters`.  Note that the source only
compares when `campaign.capture_date` is truthy; a null capture date skips
both bound checks:

```ts
if (filters.date_range) {
  const campaignDate = campaign.capture_date;
  if (campaignDate) {
    if (filters.date_range.start && campaignDate < filters.date_range.start) return false;
    if (filters.date_range.end && campaignDate > filters.date_range.end) return false;
  }
}
```

JS compares ISO date strings lexicographically; `String.lt` does the same. -/
def dateRangeCheck (captureDate : Option String) (dateRange : Option DateRange) : Bool :=
  match dateRange with
  | none => true
  | some dr =>
    if strTruthy captureDate then
      let d := captureDate.getD ""
      if strTruthy dr.start && decide (d < dr.start.getD "") then false
      else if strTruthy dr.end_ && decide (dr.end_.getD "" < d) then false
      else true
    else true

/-- Embedding of `matchesFilters(campaign, filters)` (`lib/filters.ts`).  The source is a
sequence of early-`return false` blocks ending in `return true`; since each
block is pure, that sequence is the conjunction of the per-field checks. -/
def matchesFilters (campaign : Campaign) (filters : ActiveFilters) : Bool :=
  enumFieldCheck campaign.channel filters.channel &&
  valuePropCheck campaign.key_value_props filters.value_prop &&
  enumFieldCheck campaign.imagery_sentiment filters.sentiment &&
  enumFieldCheck campaign.imagery_visual_style filters.visual_style &&
  dateRangeCheck campaign.capture_date filters.date_range

/-- The test `Object.keys(filters).length === 0` for an `ActiveFilters` value: every
field absent. -/
def ActiveFilters.isEmptyObject (f : ActiveFilters) : Bool :=
  f.channel.isNone && f.value_prop.isNone && f.sentiment.isNone &&
  f.visual_style.isNone && f.date_range.isNone

/-- Embedding of `applyFilters(campaigns, filters)` (`lib/filters.ts`):

```ts
if (!filters || Object.keys(filters).length === 0) return campaigns;
return campaigns.filter((campaign) => matchesFilters(campaign, filters));
``` -/
def applyFilters (campaigns : List Campaign) (filters : ActiveFilters) : List Campaign :=
  if filters.isEmptyObject then campaigns
  else campaigns.filter fun campaign => matchesFilters campaign filters

/-- Cleanup step of `mergeFilters`: the final loop deletes every key whose
value is `undefined` or an empty array. -/
def cleanupListField : Option (List String) → Option (List String)
  | none => none
  | some l => if l.isEmpty then none else some l

/-- Embedding of `mergeFilters(baseFilters, newFilters)` (`lib/filters.ts`): a field
present in `newFilters` replaces the base field (an empty list clears it);
absent fields are carried over; then the cleanup loop drops `undefined`
values and empty arrays (also ones coming from `baseFilters`). -/
def mergeFilters (baseFilters newFilters : ActiveFilters) : ActiveFilters :=
  let mergedChannel := match newFilters.channel with
    | some l => if l.length > 0 then some l else none
    | none => baseFilters.channel
  let mergedValueProp := match newFilters.value_prop with
    | some l => if l.length > 0 then some l else none
    | none => baseFilters.value_prop
  let mergedSentiment := match newFilters.sentiment with
    | some l => if l.length > 0 then some l else none
    | none => baseFilters.sentiment
  let mergedVisualStyle := match newFilters.visual_style with
    | some l => if l.length > 0 then some l else none
    | none => baseFilters.visual_style
  let mergedDateRange := match newFilters.date_range with
    | some dr => some dr
    | none => baseFilters.date_range
  { channel := cleanupListField mergedChannel
    value_prop := cleanupListField mergedValueProp
    sentiment := cleanupListField mergedSentiment
    visual_style := cleanupListField mergedVisualStyle
    date_range := mergedDateRange }

/-! ## Spec-side predicates for the filter-matching claim

These follow the (amended) specification wording, to be compared with the
source-translated `matchesFilters`. -/

/-- Spec reading of one enum-valued filter dimension: an absent or empty
list is no constraint; otherwise the campaign must have a non-null,
non-empty value that is a member of the list. -/
def listFieldClause (value : Option String) (filterList : Option (List String)) : Prop :=
  match filterList with
  | none => True
  | some l => l = [] ∨ ∃ v, value = some v ∧ v ≠ "" ∧ v ∈ l

/-- Spec reading of the value-prop dimension: non-empty intersection of the
filter list with the campaign value-prop list (a null list counts as empty)
list. -/
def valuePropClause (props : Option (List String)) (filterList : Option (List String)) : Prop :=
  match filterList with
  | none => True
  | some l => l = [] ∨ ∃ vp ∈ l, vp ∈ props.getD []

/-- Spec reading of the date-range dimension as the code behaves: a null or
empty capture date passes; otherwise each given, non-empty bound must hold
inclusively. -/
def dateClause (captureDate : Option String) (dateRange : Option DateRange) : Prop :=
  match dateRange with
  | none => True
  | some dr =>
    match captureDate with
    | none => True
    | some d =>
      d = "" ∨
        ((match dr.start with
          | none => True
          | some s => s = "" ∨ ¬ d < s) ∧
         (match dr.end_ with
          | none => True
          | some e => e = "" ∨ ¬ e < d))

/-- The amended spec-level matching predicate, one clause per filter
dimension, all conjoined (AND across fields). -/
def matchesFiltersSpec (c : Campaign) (f : ActiveFilters) : Prop :=
  listFieldClause c.channel f.channel ∧
  valuePropClause c.key_value_props f.value_prop ∧
  listFieldClause c.imagery_sentiment f.sentiment ∧
  listFieldClause c.imagery_visual_style f.visual_style ∧
  dateClause c.capture_date f.date_range

/-- The date-range requirement exactly as claim C2 words it: under a present
date-range filter the campaign must have a non-null capture date lying
within the given bounds (so a null capture date fails). -/
def claimDateOk (c : Campaign) (f : ActiveFilters) : Prop :=
  ∀ dr, f.date_range = some dr →
    ∃ d, c.capture_date = some d ∧
      (∀ s, dr.start = some s → ¬ d < s) ∧
      (∀ e, dr.end_ = some e → ¬ e < d)

/-! ## Tool layer (`lib/chat-tools.ts`) -/

/-- The constant `MAX_SUMMARY_CAMPAIGNS = 20`. -/
def MAX_SUMMARY_CAMPAIGNS : Nat := 20

/-- The constant `MAX_SUMMARY_LINE_LENGTH = 200`. -/
def MAX_SUMMARY_LINE_LENGTH : Nat := 200

/-- Embedding of `interface ToolResult`. -/
structure ToolResult where
  count : Nat
  summary_for_llm : String
  campaigns : List Campaign
  deriving DecidableEq

/-- JS truthiness of `x?.length` for a nullable array: truthy iff the array
is present and non-empty. -/
def optListActive : Option (List String) → Bool
  | none => false
  | some l => !l.isEmpty

/-- One summary line of `buildToolResult`: the body of
`forSummary.map((c, idx) => ...)`.  `c.offer != null` is a null check (not
truthiness), the other guards are JS truthiness; `.slice(0, 200)` becomes
`String.take`. -/
def campaignLine (c : Campaign) (idx : Nat) : String :=
  let textSnippet :=
    (String.intercalate " "
      (([c.campaign_text, c.full_campaign_text].filterMap id).filter
        fun s => !(s == ""))).take MAX_SUMMARY_LINE_LENGTH
  let parts : List (Option String) := [
    some ("Campaign " ++ toString (idx + 1) ++ ": " ++
      (if strTruthy c.company then c.company.getD "" else "Unknown") ++
      (if strTruthy c.brand then " (" ++ c.brand.getD "" ++ ")" else "")),
    c.offer.map (fun o => "Offer: " ++ o),
    (match c.key_value_props with
     | some l => if !l.isEmpty then some ("Value props: " ++ String.intercalate ", " l) else none
     | none => none),
    (if strTruthy c.imagery_sentiment then
      some ("Sentiment: " ++ c.imagery_sentiment.getD "") else none),
    (if strTruthy c.imagery_visual_style then
      some ("Visual style: " ++ c.imagery_visual_style.getD "") else none),
    (if strTruthy c.capture_date then some ("Date: " ++ c.capture_date.getD "") else none),
    (if !(textSnippet == "") then some ("Copy: " ++ textSnippet ++ "...") else none)]
  String.intercalate " | " (parts.filterMap id)

/-- Model of `Array.prototype.map((x, idx) => ...)`: map with the element index. -/
def mapWithIndex {α β : Type} (f : α → Nat → β) : List α → Nat → List β
  | [], _ => []
  | a :: as, i => f a i :: mapWithIndex f as (i + 1)

/-- The per-campaign summary lines of `buildToolResult`:
`campaigns.slice(0, MAX_SUMMARY_CAMPAIGNS).map((c, idx) => ...)`. -/
def summaryLines (campaigns : List Campaign) : List String :=
  mapWithIndex campaignLine (campaigns.take MAX_SUMMARY_CAMPAIGNS) 0

/-- The `Found ${count} campaign(s).` header of the non-empty summary. -/
def summaryHeader (count : Nat) : String :=
  "Found " ++ toString count ++ " campaign(s)."

/-- The `... and ${count - MAX_SUMMARY_CAMPAIGNS} more.` trailer appended
when `count > MAX_SUMMARY_CAMPAIGNS`. -/
def summaryMoreLine (count : Nat) : String :=
  "... and " ++ toString (count - MAX_SUMMARY_CAMPAIGNS) ++ " more."

/-- Embedding of `buildToolResult(campaigns)` (`lib/chat-tools.ts`):

```ts
const count = campaigns.length;
const forSummary = campaigns.slice(0, MAX_SUMMARY_CAMPAIGNS);
const lines = forSummary.map((c, idx) => ...);
const summary_for_llm = count === 0 ? "No campaigns found."
  : `Found ${count} campaign(s).\n${lines.join('\n')}${count > MAX_SUMMARY_CAMPAIGNS ? `\n... and ${count - MAX_SUMMARY_CAMPAIGNS} more.` : ''}`;
return { count, summary_for_llm, campaigns };
``` -/
def buildToolResult (campaigns : List Campaign) : ToolResult :=
  let count := campaigns.length
  let lines := summaryLines campaigns
  let summary_for_llm :=
    if count == 0 then "No campaigns found."
    else summaryHeader count ++ "\n" ++ String.intercalate "\n" lines ++
      (if MAX_SUMMARY_CAMPAIGNS < count then "\n" ++ summaryMoreLine count else "")
  { count := count, summary_for_llm := summary_for_llm, campaigns := campaigns }

/-- The number of newline-separated lines of a string: one more than the
number of `\n` characters. -/
def lineCount (s : String) : Nat := s.data.count '\n' + 1

/-- Arguments of the `semantic_search` tool (`SemanticSearchParams`). -/
structure SemanticSearchParams where
  query : String := ""
  embedding_field : Option String := none
  channel : Option (List String) := none
  value_prop : Option (List String) := none
  sentiment : Option (List String) := none
  visual_style : Option (List String) := none
  deriving DecidableEq

/-- Arguments of the `full_text_search` tool (`FullTextSearchParams`). -/
structure FullTextSearchParams where
  query : String := ""
  channel : Option (List String) := none
  deriving DecidableEq

/-- The filter payload of a `QueryPlan` (`lib/query-planner.ts`), as the
tool runners populate it. -/
structure QueryFilters where
  channel : Option (List String) := none
  value_prop : Option (List String) := none
  sentiment : Option (List String) := none
  visual_style : Option (List String) := none
  date_range : Option DateRange := none
  deriving DecidableEq

/-- The filter-shaped tool arguments `runSemanticSearch` overlays onto the
base filters of the caller. -/
def semanticOverlay (params : SemanticSearchParams) : ActiveFilters :=
  { channel := params.channel
    value_prop := params.value_prop
    sentiment := params.sentiment
    visual_style := params.visual_style }

/-- The in-memory re-filter of `runSemanticSearch`
(`// Apply sentiment/visual_style in memory if RPC did not support them`):

```ts
campaigns.filter((c) => {
  if (filters.sentiment?.length && !c.imagery_sentiment) return false;
  if (filters.sentiment?.length && !filters.sentiment!.includes(c.imagery_sentiment!)) return false;
  if (filters.visual_style?.length && !c.imagery_visual_style) return false;
  if (filters.visual_style?.length && !filters.visual_style!.includes(c.imagery_visual_style!)) return false;
  return true;
});
``` -/
def inMemoryEnumFilter (fSent fVis : Option (List String)) (c : Campaign) : Bool :=
  if optListActive fSent && !(strTruthy c.imagery_sentiment) then false
  else if optListActive fSent &&
      !((fSent.getD []).contains (c.imagery_sentiment.getD "")) then false
  else if optListActive fVis && !(strTruthy c.imagery_visual_style) then false
  else if optListActive fVis &&
      !((fVis.getD []).contains (c.imagery_visual_style.getD "")) then false
  else true

/-- Embedding of `runSemanticSearch(params, baseFilters)` (`lib/chat-tools.ts`).  The two
external collaborators are abstracted: `embedText` (its output only feeds
the store call) and `executeVectorSearch`, which becomes the parameter
`vecSearch`, taking the `vectorField` of the plan and its optional filter
payload and returning the campaigns of the store. -/
def runSemanticSearch (params : SemanticSearchParams) (baseFilters : ActiveFilters)
    (vecSearch : String → Option QueryFilters → List Campaign) : ToolResult :=
  let merged := mergeFilters baseFilters (semanticOverlay params)
  let fChannel := if optListActive merged.channel then merged.channel else none
  let fValueProp := if optListActive merged.value_prop then merged.value_prop else none
  let fSentiment := if optListActive merged.sentiment then merged.sentiment else none
  let fVisualStyle := if optListActive merged.visual_style then merged.visual_style else none
  let filters : QueryFilters :=
    { channel := fChannel, value_prop := fValueProp
      sentiment := fSentiment, visual_style := fVisualStyle }
  let planFilters : Option QueryFilters :=
    if fChannel.isSome || fValueProp.isSome || fSentiment.isSome || fVisualStyle.isSome
    then some filters else none
  let result := vecSearch (params.embedding_field.getD "value_prop_embedding") planFilters
  let campaigns :=
    if optListActive fSentiment || optListActive fVisualStyle then
      result.filter (inMemoryEnumFilter fSentiment fVisualStyle)
    else result
  buildToolResult campaigns

/-- Outcome of the Supabase `search_campaigns_by_text` RPC: `{ data, error }`
with nullable `data`. -/
inductive StoreReply where
  | ok (data : Option (List Campaign))
  | err (message : String)
  deriving DecidableEq

/-- Channel filter passed to the full-text RPC:
`params.channel?.length ? params.channel : baseFilters?.channel ?? null`. -/
def fullTextFilterChannels (params : FullTextSearchParams)
    (baseFilters : ActiveFilters) : Option (List String) :=
  if optListActive params.channel then params.channel else baseFilters.channel

/-- Embedding of `runFullTextSearch(params, baseFilters)` (`lib/chat-tools.ts`).  The
Supabase RPC becomes the parameter `rpc` (query text, limit, channel
filter).  On `error` the runner returns `buildToolResult([])`; otherwise
it wraps `data ?? []`.  The function is total: no error ever escapes it. -/
def runFullTextSearch (params : FullTextSearchParams) (baseFilters : ActiveFilters)
    (rpc : String → Nat → Option (List String) → StoreReply) : ToolResult :=
  match rpc params.query 50 (fullTextFilterChannels params baseFilters) with
  | StoreReply.err _ => buildToolResult []
  | StoreReply.ok data => buildToolResult (data.getD [])

/-! ## Orchestration loop (`app/api/chat/route.ts`) -/

/-- The constant `MAX_AGENT_ITERATIONS = 5`. -/
def MAX_AGENT_ITERATIONS : Nat := 5

/-- The `SYSTEM_MESSAGE` constant seeded into the conversation buffer. -/
def SYSTEM_MESSAGE : String :=
  "You are an AI assistant helping analyze marketing campaign data. You have access to tools to search and filter campaigns.\n\nTools:\n- semantic_search: Search campaigns by meaning (e.g. \"travel benefits\", \"no fee offers\"). Use for concept-based queries.\n- filter_campaigns: Filter by structured fields (channel, sentiment, value prop, visual style, date range, has_offer). Use when the user asks for specific dimensions (e.g. \"Instagram campaigns\", \"aspirational\", \"Cash Back\") or \"what are the offers from recent Cash Back, Premium campaigns\" (filter first, then answer from the result).\n- full_text_search: Search for exact words or phrases in campaign copy. Use when the user asks for campaigns that \"mention X\" or \"say Y\".\n\nCall one or more tools to answer the user. After each tool result you can call another tool or provide your final answer. Use the summary_for_llm in the tool result to answer. Be concise and cite the data. If no campaigns were found, say so and suggest alternatives."

/-- Fallback answer when a completion carries no message at all:
`"I couldn\u0027t generate a response. Please try again."`. -/
def NO_MESSAGE_FALLBACK : String :=
  "I couldn\u0027t generate a response. Please try again."

/-- Fallback answer when the model answers with empty text:
`"I don\u0027t have enough data to answer. ..."`. -/
def NO_DATA_FALLBACK : String :=
  "I don\u0027t have enough data to answer. Try asking to search or filter campaigns."

/-- Model of `String.prototype.trim()`: strip leading and trailing whitespace. -/
def jsTrim (s : String) : String :=
  ⟨((s.data.dropWhile Char.isWhitespace).reverse.dropWhile Char.isWhitespace).reverse⟩

/-- The filter-shaped fields of the parsed JSON argument object of a tool call —
the only argument fields the route itself inspects (`args.channel` etc.);
everything else in the payload is only seen by the tool runner, which is
abstracted. -/
structure ToolArgs where
  channel : Option (List String) := none
  value_prop : Option (List String) := none
  sentiment : Option (List String) := none
  visual_style : Option (List String) := none
  deriving DecidableEq

/-- One entry of `msg.tool_calls`: id, function name, and the parsed
arguments (the route parses the raw argument text, substituting an empty
object on malformed JSON — the stub supplies the outcome of that parse
directly). -/
structure ToolCallRec where
  id : String
  name : String
  args : ToolArgs
  deriving DecidableEq

/-- One entry of the conversation buffer `messages`. -/
inductive ChatMsg where
  | system (content : String)
  | user (content : String)
  | assistant (content : Option String) (tool_calls : List ToolCallRec)
  | tool (tool_call_id : String) (content : String)
  deriving DecidableEq

/-- What one `chat.completions.create` round trip yields:
`completion.choices[0]?.message` may be missing (`noMessage`), or be a
message with nullable `content` and optional `tool_calls`. -/
inductive ModelTurn where
  | noMessage
  | message (content : Option String) (tool_calls : Option (List ToolCallRec))
  deriving DecidableEq

/-- The truthiness test `msg.tool_calls?.length`: the turn carries at
least one tool call. -/
def turnHasToolCalls : ModelTurn → Bool
  | ModelTurn.message _ (some (_ :: _)) => true
  | _ => false

/-- The names `getToolRunner` resolves (`lib/chat-tools.ts`); any other
name throws `Unknown tool: ${name}`. -/
def knownToolName (name : String) : Bool :=
  name == "semantic_search" || name == "filter_campaigns" ||
  name == "full_text_search" || name == "search_offers"

/-- Mutable state of the agent loop in the `POST` handler.  `roundTrips` counts
the completed `client.chat.completions.create` calls (the
`[Iteration i] Calling LLM...` debug entries; the other debug strings are
not modelled). -/
structure LoopState where
  messages : List ChatMsg
  finalAnswer : String
  lastToolResult : Option ToolResult
  detectedFilters : ActiveFilters
  roundTrips : Nat

/-- The `detectedFilters` capture performed for a `filter_campaigns` call:

```ts
if (args.channel && Array.isArray(args.channel)) detectedFilters.channel = args.channel;
...
```

(a present array — even an empty one — is truthy in JS). -/
def updateDetected (d : ActiveFilters) (args : ToolArgs) : ActiveFilters :=
  let d := match args.channel with
    | some l => { d with channel := some l }
    | none => d
  let d := match args.value_prop with
    | some l => { d with value_prop := some l }
    | none => d
  let d := match args.sentiment with
    | some l => { d with sentiment := some l }
    | none => d
  match args.visual_style with
  | some l => { d with visual_style := some l }
  | none => d

/-- Processing of one requested tool call (the body of
`for (const tc of msg.tool_calls)`).  `runTool` abstracts
`getToolRunner(name)(args, baseFilters)` for the four known tools, with
the base filters of the request already bound; an unknown name is the
`getToolRunner` throw, caught like any tool error.  On success the result
becomes the most recent tool result, `filter_campaigns` arguments are
captured into `detectedFilters`, and the `summary_for_llm` is appended as
the tool turn; on error the loop appends
`Error running ${name}: ${errMsg}.` instead and continues. -/
def execToolCall (runTool : String → ToolArgs → Except String ToolResult)
    (st : LoopState) (tc : ToolCallRec) : LoopState :=
  match (if knownToolName tc.name then runTool tc.name tc.args
         else Except.error ("Unknown tool: " ++ tc.name)) with
  | Except.ok result =>
    { st with
      lastToolResult := some result
      detectedFilters :=
        if tc.name == "filter_campaigns" then updateDetected st.detectedFilters tc.args
        else st.detectedFilters
      messages := st.messages ++ [ChatMsg.tool tc.id result.summary_for_llm] }
  | Except.error errMsg =>
    { st with
      messages := st.messages ++
        [ChatMsg.tool tc.id ("Error running " ++ tc.name ++ ": " ++ errMsg ++ ".")] }

/-- The agent loop `for (let i = 0; i < MAX_AGENT_ITERATIONS; i++)`; `fuel`
is the number of remaining iterations.  `model` abstracts one
`chat.completions.create` call on the current buffer.  A missing message
or a turn without tool calls sets the final answer and breaks; otherwise
the assistant turn is appended, every requested call is executed in order,
and the loop continues.  When fuel runs out the state — including the
initial empty `finalAnswer` — is returned unchanged. -/
def agentLoopAux (model : List ChatMsg → ModelTurn)
    (runTool : String → ToolArgs → Except String ToolResult) :
    Nat → LoopState → LoopState
  | 0, st => st
  | fuel + 1, st =>
    let st := { st with roundTrips := st.roundTrips + 1 }
    match model st.messages with
    | ModelTurn.noMessage => { st with finalAnswer := NO_MESSAGE_FALLBACK }
    | ModelTurn.message content toolCalls =>
      if (toolCalls.getD []).isEmpty then
        { st with finalAnswer :=
            if jsTrim (content.getD "") == "" then NO_DATA_FALLBACK
            else jsTrim (content.getD "") }
      else
        let tcs := toolCalls.getD []
        let st := { st with messages := st.messages ++ [ChatMsg.assistant content tcs] }
        let st := tcs.foldl (execToolCall runTool) st
        agentLoopAux model runTool fuel st

/-- The whole agent loop of `POST`, from the seeded buffer
`[system, user]` with an empty `finalAnswer`, `lastToolResult = null`,
`detectedFilters = {}`. -/
def runAgentLoop (model : List ChatMsg → ModelTurn)
    (runTool : String → ToolArgs → Except String ToolResult)
    (userMessage : String) : LoopState :=
  agentLoopAux model runTool MAX_AGENT_ITERATIONS
    { messages := [ChatMsg.system SYSTEM_MESSAGE, ChatMsg.user userMessage]
      finalAnswer := ""
      lastToolResult := none
      detectedFilters := emptyFilters
      roundTrips := 0 }

/-- Embedding of `generateSuggestions(_response, lastResult)` of the route: three fixed
suggestions keyed on whether the last tool result had a positive count
(`if (lastResult && lastResult.count > 0)`), then `.slice(0, 3)`. -/
def generateSuggestions (lastResult : Option ToolResult) : List String :=
  let suggestions :=
    match lastResult with
    | some r =>
      if r.count > 0 then
        ["Show me the most common value propositions",
         "Compare campaigns across different channels",
         "What visual styles are trending?"]
      else
        ["Show me campaigns emphasizing travel benefits",
         "What are the offers from Cash Back campaigns?",
         "Find aspirational campaigns on Instagram"]
    | none =>
      ["Show me campaigns emphasizing travel benefits",
       "What are the offers from Cash Back campaigns?",
       "Find aspirational campaigns on Instagram"]
  suggestions.take 3

/-- The JSON payload `POST` returns on success (the `debugSteps` debug
field is not modelled). -/
structure ChatResponse where
  response : String
  campaigns : List Campaign
  total : Nat
  suggestions : List String
  detectedFilters : Option ActiveFilters
  deriving DecidableEq

/-- Response assembly of `POST`: the final answer of the loop, the campaigns
and count of the last tool result (or `[]`/0), the suggestions, and
`detectedFilters` only when non-empty
(`Object.keys(detectedFilters).length > 0 ? detectedFilters : undefined`). -/
def postChat (model : List ChatMsg → ModelTurn)
    (runTool : String → ToolArgs → Except String ToolResult)
    (userMessage : String) : ChatResponse :=
  let st := runAgentLoop model runTool userMessage
  { response := st.finalAnswer
    campaigns := match st.lastToolResult with | some r => r.campaigns | none => []
    total := match st.lastToolResult with | some r => r.count | none => 0
    suggestions := generateSuggestions st.lastToolResult
    detectedFilters :=
      if st.detectedFilters.isEmptyObject then none else some st.detectedFilters }

/-! ## Concrete stubs used by witnesses and counterexamples -/

/-- A model stub that requests a `filter_campaigns` tool call on every
turn, whatever the buffer holds. -/
def alwaysCallModel : List ChatMsg → ModelTurn := fun _ =>
  ModelTurn.message none (some [⟨"call_1", "filter_campaigns", {}⟩])

/-- A tool environment in which every known tool succeeds with an empty
result set. -/
def emptyOkRunTool : String → ToolArgs → Except String ToolResult := fun _ _ =>
  Except.ok (buildToolResult [])

/-- A model stub that asks for the unknown tool `frobnicate` on the first
turn (buffer length 2) and answers with text afterwards. -/
def unknownThenAnswerModel : List ChatMsg → ModelTurn := fun msgs =>
  if msgs.length == 2 then ModelTurn.message none (some [⟨"call_1", "frobnicate", {}⟩])
  else ModelTurn.message (some "Here are the results.") none

/-- A model stub that asks for `search_offers` with a channel argument on
the first turn (buffer length 2) and answers with text afterwards. -/
def searchOffersModel : List ChatMsg → ModelTurn := fun msgs =>
  if msgs.length == 2 then
    ModelTurn.message none (some [⟨"call_1", "search_offers", { channel := some ["instagram"] }⟩])
  else ModelTurn.message (some "Done.") none

/-- A campaign with every nullable column null. -/
def cNullDate : Campaign := {}

/-- A filter set constraining only the date range. -/
def fDateOnly : ActiveFilters :=
  { date_range := some { start := some "2024-01-01", end_ := some "2024-12-31" } }

/-- Does an `Except` carry a success value? -/
def exceptIsOk : Except String ToolResult → Bool
  | Except.ok _ => true
  | Except.error _ => false

/-- Every list field of a filter set is either absent or a non-empty list
(the normal form `mergeFilters` guarantees). -/
def listFieldsNormalized (f : ActiveFilters) : Bool :=
  (f.channel.all fun l => !l.isEmpty) &&
  (f.value_prop.all fun l => !l.isEmpty) &&
  (f.sentiment.all fun l => !l.isEmpty) &&
  (f.visual_style.all fun l => !l.isEmpty)

/-- A store stub whose full-text RPC always fails. -/
def failRpc : String → Nat → Option (List String) → StoreReply := fun _ _ _ =>
  StoreReply.err "connection failure"

/-- A store stub for vector search returning one matching and one
non-matching campaign. -/
def twoCampaignVecSearch : String → Option QueryFilters → List Campaign := fun _ _ =>
  [{ imagery_sentiment := some "Premium" }, { imagery_sentiment := none }]

/-! ### Helper lemmas for the filter model -/

theorem enumFieldCheck_iff (v : Option String) (fl : Option (List String)) :
    enumFieldCheck v fl = true ↔ listFieldClause v fl := by
  cases fl with
  | none => simp [enumFieldCheck, listFieldClause]
  | some l =>
    by_cases hl : l = []
    · subst hl; simp [enumFieldCheck, listFieldClause]
    · cases v with
      | none =>
        simp [enumFieldCheck, listFieldClause, strTruthy, hl, List.isEmpty_iff]
      | some s =>
        by_cases hs : s = ""
        · subst hs
          simp [enumFieldCheck, listFieldClause, strTruthy, hl, List.isEmpty_iff]
        · simp [enumFieldCheck, listFieldClause, strTruthy, hl, hs, List.isEmpty_iff,
            List.elem_iff, List.contains]

theorem valuePropCheck_iff (props : Option (List String)) (fl : Option (List String)) :
    valuePropCheck props fl = true ↔ valuePropClause props fl := by
  cases fl with
  | none => simp [valuePropCheck, valuePropClause]
  | some l =>
    by_cases hl : l = []
    · subst hl; simp [valuePropCheck, valuePropClause]
    · simp [valuePropCheck, valuePropClause, hl, List.isEmpty_iff, List.any_eq_true,
        List.elem_iff, List.contains]

theorem dateRangeCheck_iff (cd : Option String) (dro : Option DateRange) :
    dateRangeCheck cd dro = true ↔ dateClause cd dro := by
  cases dro with
  | none => simp [dateRangeCheck, dateClause]
  | some dr =>
    cases cd with
    | none => simp [dateRangeCheck, dateClause, strTruthy]
    | some d =>
      by_cases hd : d = ""
      · subst hd; simp [dateRangeCheck, dateClause, strTruthy]
      · cases hs : dr.start with
        | none =>
          cases he : dr.end_ with
          | none => simp [dateRangeCheck, dateClause, strTruthy, hd, hs, he]
          | some e =>
            by_cases he0 : e = "" <;>
              simp [dateRangeCheck, dateClause, strTruthy, hd, hs, he, he0]
        | some s =>
          by_cases hs0 : s = ""
          · cases he : dr.end_ with
            | none => simp [dateRangeCheck, dateClause, strTruthy, hd, hs, he, hs0]
            | some e =>
              by_cases he0 : e = "" <;>
                simp [dateRangeCheck, dateClause, strTruthy, hd, hs, he, hs0, he0]
          · cases he : dr.end_ with
            | none =>
              by_cases hlt : d < s <;>
                simp [dateRangeCheck, dateClause, strTruthy, hd, hs, he, hs0, hlt]
            | some e =>
              by_cases he0 : e = ""
              · by_cases hlt : d < s <;>
                  simp [dateRangeCheck, dateClause, strTruthy, hd, hs, he, hs0, he0, hlt]
              · by_cases hlt : d < s <;> by_cases hgt : e < d <;>
                  simp [dateRangeCheck, dateClause, strTruthy, hd, hs, he, hs0, he0, hlt, hgt]

/-- Every list field coming out of `cleanupListField` is absent or non-empty. -/
theorem cleanupListField_normalized (o : Option (List String)) :
    (cleanupListField o).all (fun l => !l.isEmpty) = true := by
  cases o with
  | none => rfl
  | some l =>
    by_cases hl : l.isEmpty <;> simp [cleanupListField, hl]

/-- All four list fields of a merged filter set are absent or non-empty. -/
theorem mergeFilters_lists_normalized (A B : ActiveFilters) :
    ((mergeFilters A B).channel.all fun l => !l.isEmpty) = true ∧
    ((mergeFilters A B).value_prop.all fun l => !l.isEmpty) = true ∧
    ((mergeFilters A B).sentiment.all fun l => !l.isEmpty) = true ∧
    ((mergeFilters A B).visual_style.all fun l => !l.isEmpty) = true := by
  refine ⟨?_, ?_, ?_, ?_⟩ <;> apply cleanupListField_normalized

/-- The cleanup pass keeps a field that is absent or non-empty. -/
theorem cleanupListField_id_of_ne_empty (o : Option (List String)) (h : o ≠ some []) :
    cleanupListField o = o := by
  cases o with
  | none => rfl
  | some l =>
    cases l with
    | nil => exact absurd rfl h
    | cons a t => rfl

/-! ### Claim: merge with an all-absent overlay (C8) -/

/-- C8 counterexample: the claim `mergeFilters(A, B) = A for every A when
every field of B is absent` fails at `A = { channel: [] }` — the cleanup
loop deletes the present-but-empty channel list, so the result is `{}`,
not `A`. -/
theorem mergeFilters_absent_overlay_counterexample :
    mergeFilters { channel := some [] } emptyFilters ≠
      ({ channel := some [] } : ActiveFilters) := by
  decide

/-- C8 (amended): if every field of the overlay is absent and no present
list field of the base is empty, merging returns the base unchanged;
fields absent from the overlay are carried over from the base (a
present-but-empty base list is the one exception: the cleanup pass drops
it). -/
theorem mergeFilters_absent_overlay_id (A : ActiveFilters)
    (h1 : A.channel ≠ some []) (h2 : A.value_prop ≠ some [])
    (h3 : A.sentiment ≠ some []) (h4 : A.visual_style ≠ some []) :
    mergeFilters A emptyFilters = A := by
  obtain ⟨ch, vp, se, vs, dr⟩ := A
  simp only [mergeFilters, emptyFilters]
  rw [cleanupListField_id_of_ne_empty _ h1, cleanupListField_id_of_ne_empty _ h2,
    cleanupListField_id_of_ne_empty _ h3, cleanupListField_id_of_ne_empty _ h4]

/-- C8 witness: the amended merge identity evaluated on a concrete
normalized base filter set. -/
theorem mergeFilters_absent_overlay_id_witness :
    (some ["facebook"] ≠ some ([] : List String)) ∧
      mergeFilters { channel := some ["facebook"], sentiment := some ["Premium"] }
        emptyFilters =
        ({ channel := some ["facebook"], sentiment := some ["Premium"] } : ActiveFilters) :=
  ⟨by decide,
    mergeFilters_absent_overlay_id _ (by decide) (by decide) (by decide) (by decide)⟩

/-! ### Claim: merged filter sets are normalized (C9) -/

/-- C9: for all inputs, the result of `mergeFilters` is normalized — every
present list field (channel, value_prop, sentiment, visual_style) is a
non-empty list; no field of the result is an empty list. -/
theorem mergeFilters_result_normalized (A B : ActiveFilters) :
    listFieldsNormalized (mergeFilters A B) = true := by
  have h := mergeFilters_lists_normalized A B
  simp only [listFieldsNormalized, Bool.and_eq_true]
  exact ⟨⟨⟨h.1, h.2.1⟩, h.2.2.1⟩, h.2.2.2⟩

/-! ### Claim: the empty filter set matches everything (C10) -/

/-- C10: `matchesFilters(c, {})` is `true` for every campaign, and
`applyFilters(campaigns, {})` returns the input list unchanged. -/
theorem matchesFilters_applyFilters_empty_filters :
    (∀ c : Campaign, matchesFilters c emptyFilters = true) ∧
      (∀ cs : List Campaign, applyFilters cs emptyFilters = cs) :=
  ⟨fun _ => rfl, fun _ => rfl⟩

/-! ### Claim: matchesFilters against the spec predicate (C2) -/

/-- C2 counterexample: a campaign with a null capture date passes a present
date-range filter (`matchesFilters` returns `true`), although the claim
requires a campaign with a null value for a constrained dimension — here
the capture date — to fail that filter. -/
theorem matchesFilters_null_capture_date_counterexample :
    matchesFilters cNullDate fDateOnly = true ∧ ¬ claimDateOk cNullDate fDateOnly := by
  refine ⟨by decide, fun h => ?_⟩
  obtain ⟨d, hd, -⟩ :=
    h { start := some "2024-01-01", end_ := some "2024-12-31" } rfl
  simp [cNullDate] at hd

/-- C2 (amended): `matchesFilters(c, f)` is `true` iff `c` satisfies every
present *non-empty* list field of `f` (channel/sentiment/visual style by
membership of a non-null, non-empty value; value props by non-empty
intersection) and, when a date-range filter is present, the capture
date is either null/empty (passing vacuously) or within the given
non-empty bounds, inclusively. -/
theorem matchesFilters_iff_matchesFiltersSpec (c : Campaign) (f : ActiveFilters) :
    matchesFilters c f = true ↔ matchesFiltersSpec c f := by
  unfold matchesFilters matchesFiltersSpec
  simp only [Bool.and_eq_true]
  rw [enumFieldCheck_iff, valuePropCheck_iff, enumFieldCheck_iff, enumFieldCheck_iff,
    dateRangeCheck_iff]
  tauto

/-! ### Helper lemmas for the orchestration loop -/

theorem execToolCall_preserves (runTool : String → ToolArgs → Except String ToolResult)
    (st : LoopState) (tc : ToolCallRec) :
    (execToolCall runTool st tc).finalAnswer = st.finalAnswer ∧
      (execToolCall runTool st tc).roundTrips = st.roundTrips := by
  unfold execToolCall
  cases (if knownToolName tc.name then runTool tc.name tc.args
         else Except.error ("Unknown tool: " ++ tc.name)) with
  | ok r => exact ⟨rfl, rfl⟩
  | error m => exact ⟨rfl, rfl⟩

theorem foldl_execToolCall_preserves (runTool : String → ToolArgs → Except String ToolResult)
    (tcs : List ToolCallRec) (st : LoopState) :
    (tcs.foldl (execToolCall runTool) st).finalAnswer = st.finalAnswer ∧
      (tcs.foldl (execToolCall runTool) st).roundTrips = st.roundTrips := by
  induction tcs generalizing st with
  | nil => exact ⟨rfl, rfl⟩
  | cons tc tcs ih =>
    simp only [List.foldl_cons]
    have h1 := execToolCall_preserves runTool st tc
    have h2 := ih (execToolCall runTool st tc)
    exact ⟨h2.1.trans h1.1, h2.2.trans h1.2⟩

theorem agentLoopAux_allToolCalls (model : List ChatMsg → ModelTurn)
    (runTool : String → ToolArgs → Except String ToolResult)
    (h : ∀ msgs, turnHasToolCalls (model msgs) = true) (fuel : Nat) :
    ∀ st : LoopState,
      (agentLoopAux model runTool fuel st).roundTrips = st.roundTrips + fuel ∧
        (agentLoopAux model runTool fuel st).finalAnswer = st.finalAnswer := by
  induction fuel with
  | zero => intro st; exact ⟨rfl, rfl⟩
  | succ n ih =>
    intro st
    have hm := h st.messages
    unfold agentLoopAux
    dsimp only
    cases hmt : model st.messages with
    | noMessage => rw [hmt] at hm; simp [turnHasToolCalls] at hm
    | message content toolCalls =>
      rw [hmt] at hm
      cases toolCalls with
      | none => simp [turnHasToolCalls] at hm
      | some tcs =>
        cases tcs with
        | nil => simp [turnHasToolCalls] at hm
        | cons tc rest =>
          dsimp only
          simp only [Option.getD_some, List.isEmpty_cons, Bool.false_eq_true,
            if_false]
          constructor
          · rw [(ih _).1, (foldl_execToolCall_preserves runTool _ _).2]
            show st.roundTrips + 1 + n = st.roundTrips + (n + 1)
            omega
          · rw [(ih _).2, (foldl_execToolCall_preserves runTool _ _).1]

/-! ### Claim: iteration cap behaviour (C1) -/

/-- C1 counterexample: with a model stub that requests a tool call on every
turn, the loop does make exactly 5 round trips and never takes a model
answer, but the final answer it terminates with is the empty string —
not the fixed `could not generate a response` fallback message, which the
code only produces when a completion carries no message at all. -/
theorem agentLoop_cap_no_fallback_counterexample :
    (runAgentLoop alwaysCallModel emptyOkRunTool "Show me campaigns").finalAnswer = "" ∧
      (runAgentLoop alwaysCallModel emptyOkRunTool "Show me campaigns").finalAnswer ≠
        NO_MESSAGE_FALLBACK ∧
      (runAgentLoop alwaysCallModel emptyOkRunTool "Show me campaigns").roundTrips = 5 := by
  refine ⟨?_, ?_, ?_⟩ <;> decide

/-- C1 (amended): whenever the model requests at least one tool call on
every iteration, the loop performs exactly 5 model round trips and then
terminates with the initial empty string as the final answer — never
a model-provided answer, and not the no-message fallback either. -/
theorem agentLoop_allToolCalls_cap (model : List ChatMsg → ModelTurn)
    (runTool : String → ToolArgs → Except String ToolResult)
    (h : ∀ msgs, turnHasToolCalls (model msgs) = true) (userMessage : String) :
    (runAgentLoop model runTool userMessage).roundTrips = 5 ∧
      (runAgentLoop model runTool userMessage).finalAnswer = "" := by
  have h5 := agentLoopAux_allToolCalls model runTool h MAX_AGENT_ITERATIONS
    { messages := [ChatMsg.system SYSTEM_MESSAGE, ChatMsg.user userMessage]
      finalAnswer := ""
      lastToolResult := none
      detectedFilters := emptyFilters
      roundTrips := 0 }
  exact ⟨h5.1, h5.2⟩

/-- C1 witness: the cap theorem applied to the concrete always-calling
stub. -/
theorem agentLoop_allToolCalls_cap_witness :
    (∀ msgs, turnHasToolCalls (alwaysCallModel msgs) = true) ∧
      (runAgentLoop alwaysCallModel emptyOkRunTool "What campaigns are there?").roundTrips = 5 ∧
      (runAgentLoop alwaysCallModel emptyOkRunTool "What campaigns are there?").finalAnswer = "" :=
  ⟨fun _ => rfl,
    agentLoop_allToolCalls_cap alwaysCallModel emptyOkRunTool (fun _ => rfl)
      "What campaigns are there?"⟩

/-! ### Claim: detected filters (C4) -/

/-- C4 counterexample: a successful `search_offers` call with a
filter-shaped `channel` argument leaves the detected-filters record empty
(and absent from the response), although the claim requires the record to
contain the arguments of every `search_offers` call. -/
theorem detectedFilters_ignores_search_offers_counterexample :
    (runAgentLoop searchOffersModel emptyOkRunTool "offers").detectedFilters = emptyFilters ∧
      ChatMsg.tool "call_1" "No campaigns found."
        ∈ (runAgentLoop searchOffersModel emptyOkRunTool "offers").messages ∧
      (postChat searchOffersModel emptyOkRunTool "offers").detectedFilters = none := by
  refine ⟨?_, ?_, ?_⟩ <;> decide

/-- C4 (amended): the detected-filters record is updated only by successful
`filter_campaigns` calls (with the filter-shaped argument fields present in
that call, later calls overwriting per field); `search_offers` and all
other calls leave it unchanged; the record is surfaced to the caller
exactly when non-empty. -/
theorem detectedFilters_filter_campaigns_only :
    (∀ (runTool : String → ToolArgs → Except String ToolResult) (st : LoopState)
        (tc : ToolCallRec),
      (execToolCall runTool st tc).detectedFilters =
        (if (tc.name == "filter_campaigns") && exceptIsOk (runTool tc.name tc.args)
         then updateDetected st.detectedFilters tc.args
         else st.detectedFilters)) ∧
    (∀ (model : List ChatMsg → ModelTurn)
        (runTool : String → ToolArgs → Except String ToolResult) (userMessage : String),
      (postChat model runTool userMessage).detectedFilters =
        (if (runAgentLoop model runTool userMessage).detectedFilters.isEmptyObject
         then none
         else some ((runAgentLoop model runTool userMessage).detectedFilters))) := by
  constructor
  · intro runTool st tc
    cases hn : tc.name == "filter_campaigns" with
    | true =>
      have hname : tc.name = "filter_campaigns" := eq_of_beq hn
      have hknown : knownToolName tc.name = true := by rw [hname]; rfl
      cases hr : runTool tc.name tc.args with
      | ok r => simp [execToolCall, hknown, hr, hn, exceptIsOk]
      | error m => simp [execToolCall, hknown, hr, hn, exceptIsOk]
    | false =>
      cases hk : knownToolName tc.name with
      | true =>
        cases hr : runTool tc.name tc.args with
        | ok r => simp [execToolCall, hk, hr, hn, exceptIsOk]
        | error m => simp [execToolCall, hk, hr, hn, exceptIsOk]
      | false => simp [execToolCall, hk, hn, exceptIsOk]
  · intro model runTool userMessage
    rfl

/-! ### Claim: full-text search error fallback (C6) -/

/-- C6: when the underlying store RPC fails, `runFullTextSearch` returns
exactly `{count: 0, campaigns: [], summary_for_llm: "No campaigns found."}`
— and, being a total function of the reply, raises nothing to its
caller. -/
theorem runFullTextSearch_storeError_empty (params : FullTextSearchParams)
    (base : ActiveFilters) (rpc : String → Nat → Option (List String) → StoreReply)
    (m : String)
    (h : rpc params.query 50 (fullTextFilterChannels params base) = StoreReply.err m) :
    runFullTextSearch params base rpc =
      { count := 0, summary_for_llm := "No campaigns found.", campaigns := [] } := by
  unfold runFullTextSearch
  rw [h]
  exact rfl

/-- C6 witness: the error fallback evaluated against a store stub whose
RPC always fails. -/
theorem runFullTextSearch_storeError_empty_witness :
    failRpc "apr" 50 (fullTextFilterChannels { query := "apr" } emptyFilters) =
        StoreReply.err "connection failure" ∧
      runFullTextSearch { query := "apr" } emptyFilters failRpc =
        { count := 0, summary_for_llm := "No campaigns found.", campaigns := [] } :=
  ⟨rfl, runFullTextSearch_storeError_empty { query := "apr" } emptyFilters failRpc
    "connection failure" rfl⟩

/-! ### Claim: unknown tool names are recoverable (C7) -/

/-- C7: if the model requests a tool with an unknown name on the first
iteration, the loop does not abort: the `Unknown tool` error becomes that
tool-turn content of that call in the conversation buffer, the loop makes a
second model round trip, and a valid (trimmed, non-empty) final textual
answer returned there becomes the final answer of the loop. -/
theorem agentLoop_unknownTool_recoverable (model : List ChatMsg → ModelTurn)
    (runTool : String → ToolArgs → Except String ToolResult)
    (userMessage tcid name : String) (args : ToolArgs) (ans : String)
    (hname : knownToolName name = false)
    (h1 : model [ChatMsg.system SYSTEM_MESSAGE, ChatMsg.user userMessage] =
      ModelTurn.message none (some [⟨tcid, name, args⟩]))
    (h2 : model [ChatMsg.system SYSTEM_MESSAGE, ChatMsg.user userMessage,
        ChatMsg.assistant none [⟨tcid, name, args⟩],
        ChatMsg.tool tcid
          ("Error running " ++ name ++ ": " ++ ("Unknown tool: " ++ name) ++ ".")] =
      ModelTurn.message (some ans) none)
    (htrim : jsTrim ans = ans) (hne : ans ≠ "") :
    (runAgentLoop model runTool userMessage).finalAnswer = ans ∧
      ChatMsg.tool tcid ("Error running " ++ name ++ ": " ++ ("Unknown tool: " ++ name) ++ ".")
        ∈ (runAgentLoop model runTool userMessage).messages ∧
      (runAgentLoop model runTool userMessage).roundTrips = 2 := by
  have hbeq : (ans == "") = false := by
    cases hb : ans == ""
    · rfl
    · exact absurd (eq_of_beq hb) hne
  simp only [runAgentLoop, MAX_AGENT_ITERATIONS, agentLoopAux, h1, h2, hname,
    htrim, hbeq, List.foldl, execToolCall, Option.getD_some, Option.getD_none,
    List.isEmpty_cons, List.isEmpty_nil, Bool.false_eq_true, if_false, if_true,
    List.cons_append, List.nil_append, List.append_nil]
  simp

/-- C7 witness: the recovery theorem applied to the concrete stub that
requests `frobnicate` first and answers afterwards. -/
theorem agentLoop_unknownTool_recoverable_witness :
    knownToolName "frobnicate" = false ∧
      (runAgentLoop unknownThenAnswerModel emptyOkRunTool "hello").finalAnswer =
        "Here are the results." ∧
      ChatMsg.tool "call_1" "Error running frobnicate: Unknown tool: frobnicate."
        ∈ (runAgentLoop unknownThenAnswerModel emptyOkRunTool "hello").messages := by
  have h := agentLoop_unknownTool_recoverable unknownThenAnswerModel emptyOkRunTool
    "hello" "call_1" "frobnicate" {} "Here are the results."
    (by decide) rfl rfl (by decide) (by decide)
  exact ⟨by decide, h.1, h.2.1⟩

/-! ### Helper lemmas about `String.intercalate` and line counts -/

theorem intercalate_go_cons (s acc b : String) (bs : List String) :
    String.intercalate.go acc s (b :: bs) = acc ++ s ++ String.intercalate.go b s bs := by
  induction bs generalizing acc b with
  | nil => rfl
  | cons c cs ih =>
    rw [show String.intercalate.go acc s (b :: c :: cs) =
        String.intercalate.go (acc ++ s ++ b) s (c :: cs) from rfl, ih, ih]
    simp [String.append_assoc]

theorem intercalate_cons_of_ne_nil (s a : String) (l : List String) (h : l ≠ []) :
    String.intercalate s (a :: l) = a ++ s ++ String.intercalate s l := by
  cases l with
  | nil => exact absurd rfl h
  | cons b bs => exact intercalate_go_cons s a b bs

theorem intercalate_append_singleton (s b : String) (l : List String) (h : l ≠ []) :
    String.intercalate s (l ++ [b]) = String.intercalate s l ++ s ++ b := by
  induction l with
  | nil => exact absurd rfl h
  | cons a l ih =>
    cases l with
    | nil =>
      rw [show ([a] ++ [b] : List String) = [a, b] from rfl,
        intercalate_cons_of_ne_nil s a [b] (by simp)]
      rfl
    | cons c cs =>
      rw [List.cons_append, intercalate_cons_of_ne_nil s a ((c :: cs) ++ [b]) (by simp),
        ih (by simp), intercalate_cons_of_ne_nil s a (c :: cs) (by simp)]
      simp [String.append_assoc]

theorem length_mapWithIndex {α β : Type} (f : α → Nat → β) :
    ∀ (l : List α) (i : Nat), (mapWithIndex f l i).length = l.length := by
  intro l
  induction l with
  | nil => intro i; rfl
  | cons a as ih => intro i; simp [mapWithIndex, ih]

/-! ### Claim: summaries of more than 20 campaigns (C3) -/

set_option maxRecDepth 40000 in
/-- C3 counterexample: at a concrete list of 21 campaigns the summary has
22 newline-separated lines (the `Found 21 campaign(s).` header line, 20
per-campaign lines and the `... and 1 more.` trailer), not the 21 lines
the claim states. -/
theorem buildToolResult_21_lines_counterexample :
    lineCount (buildToolResult (List.replicate 21 cNullDate)).summary_for_llm = 22 ∧
      lineCount (buildToolResult (List.replicate 21 cNullDate)).summary_for_llm ≠ 21 := by
  refine ⟨?_, ?_⟩ <;> decide

/-- C3 (amended): for every campaign list of length `N > 20`, the summary
is the newline-join of exactly 22 strings — one header line, 20
per-campaign entries, and one trailing `... and N - 20 more.` line — while
the returned `campaigns` array is the original (untruncated) list and
`count = N`. -/
theorem buildToolResult_over20_structure (cs : List Campaign) (h : 20 < cs.length) :
    (buildToolResult cs).summary_for_llm =
      String.intercalate "\n"
        (summaryHeader cs.length :: (summaryLines cs ++ [summaryMoreLine cs.length])) ∧
    (summaryHeader cs.length :: (summaryLines cs ++ [summaryMoreLine cs.length])).length = 22 ∧
    (buildToolResult cs).campaigns = cs ∧
    (buildToolResult cs).count = cs.length := by
  have hlen : (summaryLines cs).length = 20 := by
    unfold summaryLines
    rw [length_mapWithIndex, List.length_take]
    exact Nat.min_eq_left (Nat.le_of_lt h)
  have hne : summaryLines cs ≠ [] := by
    intro e
    rw [e] at hlen
    exact absurd hlen (by decide)
  refine ⟨?_, ?_, rfl, rfl⟩
  · rw [intercalate_cons_of_ne_nil _ _ _ (by simp),
      intercalate_append_singleton _ _ _ hne]
    have h0 : (cs.length == 0) = false := by
      rw [beq_eq_false_iff_ne]
      omega
    have hgt : MAX_SUMMARY_CAMPAIGNS < cs.length := h
    unfold buildToolResult
    simp only [h0, Bool.false_eq_true, if_false, if_pos hgt]
    simp [String.append_assoc]
  · simp [hlen]

/-- C3 witness: the structure theorem evaluated at a list of 21
campaigns. -/
theorem buildToolResult_over20_structure_witness :
    20 < (List.replicate 21 cNullDate).length ∧
      (summaryHeader (List.replicate 21 cNullDate).length ::
        (summaryLines (List.replicate 21 cNullDate) ++
          [summaryMoreLine (List.replicate 21 cNullDate).length])).length = 22 ∧
      (buildToolResult (List.replicate 21 cNullDate)).campaigns =
        List.replicate 21 cNullDate :=
  ⟨by decide,
    (buildToolResult_over20_structure (List.replicate 21 cNullDate) (by decide)).2.1,
    (buildToolResult_over20_structure (List.replicate 21 cNullDate) (by decide)).2.2.1⟩

/-! ### Claim: semantic search re-applies sentiment/visual filters (C5) -/

/-- The early-return chain of the in-memory re-filter is the conjunction
of the negated exit conditions. -/
theorem inMemoryEnumFilter_eq (fSent fVis : Option (List String)) (c : Campaign) :
    inMemoryEnumFilter fSent fVis c =
      (!(optListActive fSent && !strTruthy c.imagery_sentiment) &&
       !(optListActive fSent && !((fSent.getD []).contains (c.imagery_sentiment.getD ""))) &&
       !(optListActive fVis && !strTruthy c.imagery_visual_style) &&
       !(optListActive fVis && !((fVis.getD []).contains (c.imagery_visual_style.getD "")))) := by
  unfold inMemoryEnumFilter
  split_ifs with hc1 hc2 hc3 hc4 <;>
    cases hS : optListActive fSent <;>
    cases hV : optListActive fVis <;>
    simp_all

theorem inMemoryEnumFilter_sound (fSent fVis : Option (List String)) (c : Campaign)
    (h : inMemoryEnumFilter fSent fVis c = true) :
    (∀ l, fSent = some l → l ≠ [] → ∃ s, c.imagery_sentiment = some s ∧ s ∈ l) ∧
      (∀ l, fVis = some l → l ≠ [] → ∃ v, c.imagery_visual_style = some v ∧ v ∈ l) := by
  rw [inMemoryEnumFilter_eq] at h
  simp only [Bool.and_eq_true] at h
  obtain ⟨⟨⟨hc1, hc2⟩, hc3⟩, hc4⟩ := h
  rw [Bool.not_eq_true'] at hc1 hc2 hc3 hc4
  constructor
  · intro l hl hlne
    subst hl
    have hact : optListActive (some l) = true := by
      simp [optListActive, List.isEmpty_iff, hlne]
    rw [hact] at hc1 hc2
    simp only [Bool.true_and, Bool.not_eq_false] at hc1 hc2
    cases hcs : c.imagery_sentiment with
    | none => rw [hcs] at hc1; simp [strTruthy] at hc1
    | some s =>
      rw [hcs] at hc2
      simp only [Option.getD_some] at hc2
      exact ⟨s, rfl, by simpa [List.contains, List.elem_iff] using hc2⟩
  · intro l hl hlne
    subst hl
    have hact : optListActive (some l) = true := by
      simp [optListActive, List.isEmpty_iff, hlne]
    rw [hact] at hc3 hc4
    simp only [Bool.true_and, Bool.not_eq_false] at hc3 hc4
    cases hcv : c.imagery_visual_style with
    | none => rw [hcv] at hc3; simp [strTruthy] at hc3
    | some v =>
      rw [hcv] at hc4
      simp only [Option.getD_some] at hc4
      exact ⟨v, rfl, by simpa [List.contains, List.elem_iff] using hc4⟩

/-- C5: every campaign in a `semantic_search` tool result satisfies the
merged sentiment and visual-style filters: whenever the merged filter set
carries a sentiment (resp. visual-style) list, each returned campaign has
a non-null `imagery_sentiment` (resp. `imagery_visual_style`) belonging to
that list — these two fields are re-applied in memory on the
returned set before summarization. -/
theorem runSemanticSearch_enforces_sentiment_visual
    (params : SemanticSearchParams) (base : ActiveFilters)
    (vecSearch : String → Option QueryFilters → List Campaign) (c : Campaign)
    (hc : c ∈ (runSemanticSearch params base vecSearch).campaigns) :
    (∀ l, (mergeFilters base (semanticOverlay params)).sentiment = some l →
      ∃ s, c.imagery_sentiment = some s ∧ s ∈ l) ∧
    (∀ l, (mergeFilters base (semanticOverlay params)).visual_style = some l →
      ∃ v, c.imagery_visual_style = some v ∧ v ∈ l) := by
  have hnorm := mergeFilters_lists_normalized base (semanticOverlay params)
  simp only [runSemanticSearch, buildToolResult] at hc
  constructor
  · intro l hl
    have h1 := hnorm.2.2.1
    rw [hl] at h1
    have hlne : l ≠ [] := by simpa [List.isEmpty_iff] using h1
    have hact : optListActive (some l) = true := by
      simp [optListActive, List.isEmpty_iff, hlne]
    rw [hl] at hc
    simp only [hact, if_true, Bool.true_or, List.mem_filter] at hc
    exact (inMemoryEnumFilter_sound _ _ _ hc.2).1 l rfl hlne
  · intro l hl
    have h1 := hnorm.2.2.2
    rw [hl] at h1
    have hlne : l ≠ [] := by simpa [List.isEmpty_iff] using h1
    have hact : optListActive (some l) = true := by
      simp [optListActive, List.isEmpty_iff, hlne]
    rw [hl] at hc
    simp only [hact, if_true, Bool.or_true, List.mem_filter] at hc
    exact (inMemoryEnumFilter_sound _ _ _ hc.2).2 l rfl hlne

/-- C5 witness: a matching campaign returned through the concrete
two-campaign store satisfies the merged sentiment filter. -/
theorem runSemanticSearch_enforces_sentiment_visual_witness :
    ({ imagery_sentiment := some "Premium" } : Campaign) ∈
        (runSemanticSearch { query := "premium feel", sentiment := some ["Premium"] }
          emptyFilters twoCampaignVecSearch).campaigns ∧
      ∃ s, ({ imagery_sentiment := some "Premium" } : Campaign).imagery_sentiment = some s ∧
        s ∈ ["Premium"] :=
  ⟨by decide,
    (runSemanticSearch_enforces_sentiment_visual
      { query := "premium feel", sentiment := some ["Premium"] } emptyFilters
      twoCampaignVecSearch { imagery_sentiment := some "Premium" } (by decide)).1
      ["Premium"] (by decide)⟩

end Thematic
